import Mathlib

/-! Shallow embedding of the tool-dispatch and argument-validation layer of the
freshMCP repository: `CosmosDBServer.execute_tool` (src/cosmos/mcp/cosmos.py)
and `SearchServer.execute_tool` (src/search/mcp/search.py), together with the
tool catalogs of the two tools.py files.

Python values that can appear in a tool argument bag are modelled by `Value`;
the Python exceptions relevant to these two files by `PyExc`; the argument
dict by an association list `ArgBag`.  A Python statement sequence is modelled
in the monad `M`, which threads the argument bag (so that non-mutation of the
bag is a provable statement rather than an artifact of the embedding) and
short-circuits on a raised exception.  Handler methods are abstract functions
supplied through a `Handlers` structure; a Python call `self.m(a, b, c)` is
modelled by `pyCall`, which looks the method up in the method table of the class
and enforces the positional-parameter count of the source `def`, raising
`TypeError` on an arity mismatch and `AttributeError` for a missing method,
exactly as Python does at such a call site. -/

/-- A Python value that can appear in a tool argument bag or handler result. -/
inductive Value : Type where
  | none : Value
  | bool (b : Bool) : Value
  | int (n : Int) : Value
  | str (s : String) : Value
  | list (xs : List Value) : Value
  | dict (kvs : List (String × Value)) : Value

/-- Python truthiness of a `Value`, i.e. `bool(v)`: `None`, `False`, `0`, the
empty string, the empty list and the empty dict are falsy. -/
def truthy : Value → Bool
  | Value.none => false
  | Value.bool b => b
  | Value.int n => decide (n ≠ 0)
  | Value.str s => decide (s ≠ "")
  | Value.list xs => !xs.isEmpty
  | Value.dict kvs => !kvs.isEmpty

/-- The Python exceptions that can arise in the two `execute_tool` methods:
`KeyError` from a dict subscript, `ValueError` raised by the validation code
and the unsupported-tool branch, `TypeError` from a call with the wrong number
of positional arguments, `AttributeError` from a reference to a method the
class does not define, the three Azure SDK exception kinds named by the
`except` clauses, and a constructor for any other exception a handler may
raise. -/
inductive PyExc : Type where
  | keyError (key : String) : PyExc
  | valueError (msg : String) : PyExc
  | typeError (msg : String) : PyExc
  | attributeError (msg : String) : PyExc
  | resourceNotFound (msg : String) : PyExc
  | resourceExists (msg : String) : PyExc
  | azureError (msg : String) : PyExc
  | otherError (msg : String) : PyExc

/-- Python `str(e)`.  `str` of a `KeyError` is the `repr` of the missing key,
which for a string key is the key wrapped in single quotes. -/
def excMessage : PyExc → String
  | PyExc.keyError k => "\x27" ++ k ++ "\x27"
  | PyExc.valueError m => m
  | PyExc.typeError m => m
  | PyExc.attributeError m => m
  | PyExc.resourceNotFound m => m
  | PyExc.resourceExists m => m
  | PyExc.azureError m => m
  | PyExc.otherError m => m

/-- Which `except` clause of the shared error-normalizing chain produced a
failure envelope.  The source encodes the category only as the prefix of the
message in the returned error dict; this constructor tag records which clause
fired, and the message stored alongside it is the full message the source
builds, prefix included. -/
inductive FailCat : Type where
  | resourceNotFound : FailCat
  | resourceExists : FailCat
  | storeError : FailCat
  | unexpected : FailCat

/-- The result envelope of one `execute_tool` invocation: the return
value of the handler, unmodified on success, or the error payload produced by one of the four
`except` clauses. -/
inductive Envelope : Type where
  | success (v : Value) : Envelope
  | failure (cat : FailCat) (msg : String) : Envelope

/-- The wire value the source actually returns: a success is the handler value
itself, and a failure is the one-key error dict built in the except branch. -/
def Envelope.toValue : Envelope → Value
  | Envelope.success v => v
  | Envelope.failure _ m => Value.dict [("error", Value.str m)]

/-- Matches `except ResourceNotFoundError`. -/
def isResourceNotFoundExc : PyExc → Bool
  | PyExc.resourceNotFound _ => true
  | _ => false

/-- Matches `except ResourceExistsError`. -/
def isResourceExistsExc : PyExc → Bool
  | PyExc.resourceExists _ => true
  | _ => false

/-- Matches `except AzureError`.  In `azure.core.exceptions`,
`ResourceNotFoundError` and `ResourceExistsError` are subclasses of
`AzureError`, so an `except AzureError` clause also matches them. -/
def isAzureErrorExc : PyExc → Bool
  | PyExc.azureError _ => true
  | PyExc.resourceNotFound _ => true
  | PyExc.resourceExists _ => true
  | _ => false

/-- The `except` chain both `execute_tool` methods wrap their dispatch body in
(cosmos.py lines 228-246, search.py lines 170-188, textually identical):
`ResourceNotFoundError` first, then `ResourceExistsError`, then `AzureError`,
then the catch-all `Exception`, each returning an error dict whose message is
a fixed prefix followed by `str(e)`. -/
def classify (e : PyExc) : Envelope :=
  if isResourceNotFoundExc e then
    Envelope.failure FailCat.resourceNotFound ("Resource not found: " ++ excMessage e)
  else if isResourceExistsExc e then
    Envelope.failure FailCat.resourceExists ("Resource already exists: " ++ excMessage e)
  else if isAzureErrorExc e then
    Envelope.failure FailCat.storeError ("Azure error: " ++ excMessage e)
  else
    Envelope.failure FailCat.unexpected ("Unexpected error: " ++ excMessage e)

/-- The argument dict handed to `execute_tool`, as an association list. -/
abbrev ArgBag : Type := List (String × Value)

/-- Dict lookup on the argument bag. -/
def lookupBag : ArgBag → String → Option Value
  | [], _ => Option.none
  | (k, v) :: rest, key => if k = key then Option.some v else lookupBag rest key

/-- A Python statement sequence inside the `try` block: threads the argument
bag and short-circuits on a raised exception. -/
def M (α : Type) : Type := ArgBag → Except PyExc α × ArgBag

def M.bind {α β : Type} (m : M α) (f : α → M β) : M β := fun b =>
  match m b with
  | (Except.ok a, b2) => f a b2
  | (Except.error e, b2) => (Except.error e, b2)

instance : Monad M where
  pure a := fun b => (Except.ok a, b)
  bind := M.bind

/-- Python `raise e`. -/
def throwM {α : Type} (e : PyExc) : M α := fun b => (Except.error e, b)

/-- Subscript access `tool_args[key]`: raises `KeyError` when the key is
absent, and reads the bag without changing it. -/
def getItem (key : String) : M Value := fun b =>
  match lookupBag b key with
  | Option.some v => (Except.ok v, b)
  | Option.none => (Except.error (PyExc.keyError key), b)

/-- Access `tool_args.get(key, dflt)`: never raises. -/
def getItemOr (key : String) (dflt : Value) : M Value := fun b =>
  match lookupBag b key with
  | Option.some v => (Except.ok v, b)
  | Option.none => (Except.ok dflt, b)

/-- A Python method call `self.mname(args...)` on a class named `cls` whose
method table is `tbl`.  The table maps a method name to the number of
positional parameters of its `def` besides `self`, plus the abstract
implementation.  A missing method raises `AttributeError`; a call whose
argument count differs from the parameter count raises `TypeError` (the `+ 1`
in the message counts `self`, as CPython does for bound methods of this
shape).  The bag is not touched: handlers receive extracted values only. -/
def pyCall (cls : String) (tbl : String → Option (Nat × (List Value → Except PyExc Value)))
    (mname : String) (args : List Value) : M Value := fun b =>
  match tbl mname with
  | Option.none =>
      (Except.error (PyExc.attributeError
        ("\x27" ++ cls ++ "\x27 object has no attribute \x27" ++ mname ++ "\x27")), b)
  | Option.some (ar, f) =>
      if args.length = ar then (f args, b)
      else
        (Except.error (PyExc.typeError
          (mname ++ "() takes " ++ toString (ar + 1) ++
            " positional arguments but " ++ toString (args.length + 1) ++ " were given")), b)

namespace Cosmos

/-- The handler methods `CosmosDBServer` defines (cosmos.py lines 248-439),
as abstract implementations: each eventually returns a value or raises.  There
is no `_list_accounts` field because the class defines no such method, even
though the `cosmosdb_account_list` dispatch branch calls one. -/
structure Handlers where
  _list_databases : List Value → Except PyExc Value
  _describe_database : List Value → Except PyExc Value
  _list_containers : List Value → Except PyExc Value
  _create_container : List Value → Except PyExc Value
  _describe_container : List Value → Except PyExc Value
  _delete_container : List Value → Except PyExc Value
  _create_item : List Value → Except PyExc Value
  _read_item : List Value → Except PyExc Value
  _delete_item : List Value → Except PyExc Value
  _query_item : List Value → Except PyExc Value
  _replace_item : List Value → Except PyExc Value

/-- Method table of `CosmosDBServer`: each defined method with the number of
positional parameters of its `def` besides `self`, transcribed from the
signatures at cosmos.py lines 248, 270, 285, 305, 326, 343, 358, 374, 390,
406 and 423.  In particular `_read_item` and `_delete_item` declare four
parameters besides `self`. -/
def methods (H : Handlers) : String → Option (Nat × (List Value → Except PyExc Value))
  | "_list_databases" => Option.some (1, H._list_databases)
  | "_describe_database" => Option.some (2, H._describe_database)
  | "_list_containers" => Option.some (2, H._list_containers)
  | "_create_container" => Option.some (4, H._create_container)
  | "_describe_container" => Option.some (3, H._describe_container)
  | "_delete_container" => Option.some (3, H._delete_container)
  | "_create_item" => Option.some (4, H._create_item)
  | "_read_item" => Option.some (4, H._read_item)
  | "_delete_item" => Option.some (4, H._delete_item)
  | "_query_item" => Option.some (5, H._query_item)
  | "_replace_item" => Option.some (6, H._replace_item)
  | _ => Option.none

/-- The `try` body of `CosmosDBServer.execute_tool` (cosmos.py lines 97-227).
The source writes two consecutive `if`/`elif` chains (the second starts at
line 120), but since every branch ends in `return`, the two chains behave as
the single flat chain written here.  The branch order, the subscript reads,
the truthiness checks and the call argument lists are transcribed branch by
branch, including the second, duplicated `cosmosdb_item_delete` branch at
lines 214-224 and the final `raise ValueError` at line 227. -/
def body (H : Handlers) (tool_name : String) : M Value :=
  if tool_name = "cosmosdb_account_list" then do
    let account_name ← getItem "account_name"
    if !truthy account_name then
      throwM (PyExc.valueError "Account name is required")
    pyCall "CosmosDBServer" (methods H) "_list_accounts" [account_name]
  else if tool_name = "cosmosdb_database_list" then do
    let account_name ← getItem "account_name"
    if !truthy account_name then
      throwM (PyExc.valueError "Account name is required")
    pyCall "CosmosDBServer" (methods H) "_list_databases" [account_name]
  else if tool_name = "cosmosdb_database_describe" then do
    let account_name ← getItem "account_name"
    let database_name ← getItem "database_name"
    if !truthy account_name || !truthy database_name then
      throwM (PyExc.valueError "Account name and database name are required")
    pyCall "CosmosDBServer" (methods H) "_describe_database" [account_name, database_name]
  else if tool_name = "cosmosdb_container_list" then do
    let account_name ← getItem "account_name"
    let database_name ← getItem "database_name"
    if !truthy account_name || !truthy database_name then
      throwM (PyExc.valueError "Account name and database name are required")
    pyCall "CosmosDBServer" (methods H) "_list_containers" [account_name, database_name]
  else if tool_name = "cosmosdb_container_create" then do
    let account_name ← getItem "account_name"
    let database_name ← getItem "database_name"
    let container_name ← getItem "container_name"
    let partition_key ← getItem "partition_key"
    if !truthy account_name || !truthy database_name || !truthy container_name ||
        !truthy partition_key then
      throwM (PyExc.valueError
        "Account name, database name, container name, and partition key are required")
    pyCall "CosmosDBServer" (methods H) "_create_container"
      [account_name, database_name, container_name, partition_key]
  else if tool_name = "cosmosdb_container_describe" then do
    let account_name ← getItem "account_name"
    let database_name ← getItem "database_name"
    let container_name ← getItem "container_name"
    if !truthy account_name || !truthy database_name || !truthy container_name then
      throwM (PyExc.valueError "Account name, database name, and container name are required")
    pyCall "CosmosDBServer" (methods H) "_describe_container"
      [account_name, database_name, container_name]
  else if tool_name = "cosmosdb_container_delete" then do
    let account_name ← getItem "account_name"
    let database_name ← getItem "database_name"
    let container_name ← getItem "container_name"
    if !truthy account_name || !truthy database_name || !truthy container_name then
      throwM (PyExc.valueError "Account name, database name, and container name are required")
    pyCall "CosmosDBServer" (methods H) "_delete_container"
      [account_name, database_name, container_name]
  else if tool_name = "cosmosdb_item_create" then do
    let account_name ← getItem "account_name"
    let database_name ← getItem "database_name"
    let container_name ← getItem "container_name"
    let item ← getItem "item"
    if !truthy account_name || !truthy database_name || !truthy container_name ||
        !truthy item then
      throwM (PyExc.valueError
        "Account name, database name, container name, and item are required")
    pyCall "CosmosDBServer" (methods H) "_create_item"
      [account_name, database_name, container_name, item]
  else if tool_name = "cosmosdb_item_read" then do
    let account_name ← getItem "account_name"
    let database_name ← getItem "database_name"
    let container_name ← getItem "container_name"
    let item_id ← getItem "item_id"
    let partition_key ← getItem "partition_key"
    if !truthy account_name || !truthy database_name || !truthy container_name ||
        !truthy item_id || !truthy partition_key then
      throwM (PyExc.valueError
        "Account name, database name, container name, item ID, and partition key are required")
    pyCall "CosmosDBServer" (methods H) "_read_item"
      [account_name, database_name, container_name, item_id, partition_key]
  else if tool_name = "cosmosdb_item_delete" then do
    let account_name ← getItem "account_name"
    let database_name ← getItem "database_name"
    let container_name ← getItem "container_name"
    let item_id ← getItem "item_id"
    let partition_key ← getItem "partition_key"
    if !truthy account_name || !truthy database_name || !truthy container_name ||
        !truthy item_id || !truthy partition_key then
      throwM (PyExc.valueError
        "Account name, database name, container name, item ID, and partition key are required")
    pyCall "CosmosDBServer" (methods H) "_delete_item"
      [account_name, database_name, container_name, item_id, partition_key]
  else if tool_name = "cosmosdb_item_query" then do
    let account_name ← getItem "account_name"
    let database_name ← getItem "database_name"
    let container_name ← getItem "container_name"
    let query ← getItem "query"
    let parameters ← getItem "parameters"
    if !truthy account_name || !truthy database_name || !truthy container_name ||
        !truthy query then
      throwM (PyExc.valueError
        "Account name, database name, container name, and query are required")
    pyCall "CosmosDBServer" (methods H) "_query_item"
      [account_name, database_name, container_name, query, parameters]
  else if tool_name = "cosmosdb_item_replace" then do
    let account_name ← getItem "account_name"
    let database_name ← getItem "database_name"
    let container_name ← getItem "container_name"
    let item_id ← getItem "item_id"
    let item ← getItem "item"
    let partition_key ← getItem "partition_key"
    if !truthy account_name || !truthy database_name || !truthy container_name ||
        !truthy item_id || !truthy item || !truthy partition_key then
      throwM (PyExc.valueError
        "Account name, database name, container name, item ID, item, and partition key are required")
    pyCall "CosmosDBServer" (methods H) "_replace_item"
      [account_name, database_name, container_name, item_id, item, partition_key]
  else if tool_name = "cosmosdb_item_delete" then do
    let account_name ← getItem "account_name"
    let database_name ← getItem "database_name"
    let container_name ← getItem "container_name"
    let item_id ← getItem "item_id"
    let partition_key ← getItem "partition_key"
    if !truthy account_name || !truthy database_name || !truthy container_name ||
        !truthy item_id || !truthy partition_key then
      throwM (PyExc.valueError
        "Account name, database name, container name, item ID, and partition key are required")
    pyCall "CosmosDBServer" (methods H) "_delete_item"
      [account_name, database_name, container_name, item_id, partition_key]
  else
    throwM (PyExc.valueError ("Unsupported tool: " ++ tool_name))

/-- `CosmosDBServer.execute_tool`: the `try` body wrapped in the
error-normalizing `except` chain (`classify`). -/
def execute_tool (H : Handlers) (tool_name : String) : M Envelope := fun b =>
  match body H tool_name b with
  | (Except.ok v, b2) => (Except.ok (Envelope.success v), b2)
  | (Except.error e, b2) => (Except.ok (classify e), b2)

/-- The tool names that have a dispatch branch in
`CosmosDBServer.execute_tool`, in branch order. -/
def toolNames : List String :=
  ["cosmosdb_account_list", "cosmosdb_database_list", "cosmosdb_database_describe",
   "cosmosdb_container_list", "cosmosdb_container_create", "cosmosdb_container_describe",
   "cosmosdb_container_delete", "cosmosdb_item_create", "cosmosdb_item_read",
   "cosmosdb_item_delete", "cosmosdb_item_query", "cosmosdb_item_replace"]

/-- The tool catalog of src/cosmos/mcp/tools.py (`get_cosmosdb_tools`): each
tool name with the `required` list of its `inputSchema`, in source order. -/
def get_cosmosdb_tools : List (String × List String) :=
  [("cosmosdb_database_list", ["account_name"]),
   ("cosmosdb_database_describe", ["account_name", "database_name"]),
   ("cosmosdb_database_create", ["account_name", "database_name"]),
   ("cosmosdb_container_create", ["account_name", "container_name", "partition_key"]),
   ("cosmosdb_container_list", ["account_name", "database_name"]),
   ("cosmosdb_container_delete", ["account_name", "container_name", "database_name"]),
   ("cosmosdb_item_read",
     ["account_name", "container_name", "database_name", "item_id", "partition_key"]),
   ("cosmosdb_item_query", ["account_name", "container_name", "database_name", "query"])]

/-- The `try` body of `execute_tool` with the duplicated second
`cosmosdb_item_delete` branch (cosmos.py lines 214-224) removed and nothing
else changed.  Used to state that the duplicate branch is dead code. -/
def bodySingle (H : Handlers) (tool_name : String) : M Value :=
  if tool_name = "cosmosdb_account_list" then do
    let account_name ← getItem "account_name"
    if !truthy account_name then
      throwM (PyExc.valueError "Account name is required")
    pyCall "CosmosDBServer" (methods H) "_list_accounts" [account_name]
  else if tool_name = "cosmosdb_database_list" then do
    let account_name ← getItem "account_name"
    if !truthy account_name then
      throwM (PyExc.valueError "Account name is required")
    pyCall "CosmosDBServer" (methods H) "_list_databases" [account_name]
  else if tool_name = "cosmosdb_database_describe" then do
    let account_name ← getItem "account_name"
    let database_name ← getItem "database_name"
    if !truthy account_name || !truthy database_name then
      throwM (PyExc.valueError "Account name and database name are required")
    pyCall "CosmosDBServer" (methods H) "_describe_database" [account_name, database_name]
  else if tool_name = "cosmosdb_container_list" then do
    let account_name ← getItem "account_name"
    let database_name ← getItem "database_name"
    if !truthy account_name || !truthy database_name then
      throwM (PyExc.valueError "Account name and database name are required")
    pyCall "CosmosDBServer" (methods H) "_list_containers" [account_name, database_name]
  else if tool_name = "cosmosdb_container_create" then do
    let account_name ← getItem "account_name"
    let database_name ← getItem "database_name"
    let container_name ← getItem "container_name"
    let partition_key ← getItem "partition_key"
    if !truthy account_name || !truthy database_name || !truthy container_name ||
        !truthy partition_key then
      throwM (PyExc.valueError
        "Account name, database name, container name, and partition key are required")
    pyCall "CosmosDBServer" (methods H) "_create_container"
      [account_name, database_name, container_name, partition_key]
  else if tool_name = "cosmosdb_container_describe" then do
    let account_name ← getItem "account_name"
    let database_name ← getItem "database_name"
    let container_name ← getItem "container_name"
    if !truthy account_name || !truthy database_name || !truthy container_name then
      throwM (PyExc.valueError "Account name, database name, and container name are required")
    pyCall "CosmosDBServer" (methods H) "_describe_container"
      [account_name, database_name, container_name]
  else if tool_name = "cosmosdb_container_delete" then do
    let account_name ← getItem "account_name"
    let database_name ← getItem "database_name"
    let container_name ← getItem "container_name"
    if !truthy account_name || !truthy database_name || !truthy container_name then
      throwM (PyExc.valueError "Account name, database name, and container name are required")
    pyCall "CosmosDBServer" (methods H) "_delete_container"
      [account_name, database_name, container_name]
  else if tool_name = "cosmosdb_item_create" then do
    let account_name ← getItem "account_name"
    let database_name ← getItem "database_name"
    let container_name ← getItem "container_name"
    let item ← getItem "item"
    if !truthy account_name || !truthy database_name || !truthy container_name ||
        !truthy item then
      throwM (PyExc.valueError
        "Account name, database name, container name, and item are required")
    pyCall "CosmosDBServer" (methods H) "_create_item"
      [account_name, database_name, container_name, item]
  else if tool_name = "cosmosdb_item_read" then do
    let account_name ← getItem "account_name"
    let database_name ← getItem "database_name"
    let container_name ← getItem "container_name"
    let item_id ← getItem "item_id"
    let partition_key ← getItem "partition_key"
    if !truthy account_name || !truthy database_name || !truthy container_name ||
        !truthy item_id || !truthy partition_key then
      throwM (PyExc.valueError
        "Account name, database name, container name, item ID, and partition key are required")
    pyCall "CosmosDBServer" (methods H) "_read_item"
      [account_name, database_name, container_name, item_id, partition_key]
  else if tool_name = "cosmosdb_item_delete" then do
    let account_name ← getItem "account_name"
    let database_name ← getItem "database_name"
    let container_name ← getItem "container_name"
    let item_id ← getItem "item_id"
    let partition_key ← getItem "partition_key"
    if !truthy account_name || !truthy database_name || !truthy container_name ||
        !truthy item_id || !truthy partition_key then
      throwM (PyExc.valueError
        "Account name, database name, container name, item ID, and partition key are required")
    pyCall "CosmosDBServer" (methods H) "_delete_item"
      [account_name, database_name, container_name, item_id, partition_key]
  else if tool_name = "cosmosdb_item_query" then do
    let account_name ← getItem "account_name"
    let database_name ← getItem "database_name"
    let container_name ← getItem "container_name"
    let query ← getItem "query"
    let parameters ← getItem "parameters"
    if !truthy account_name || !truthy database_name || !truthy container_name ||
        !truthy query then
      throwM (PyExc.valueError
        "Account name, database name, container name, and query are required")
    pyCall "CosmosDBServer" (methods H) "_query_item"
      [account_name, database_name, container_name, query, parameters]
  else if tool_name = "cosmosdb_item_replace" then do
    let account_name ← getItem "account_name"
    let database_name ← getItem "database_name"
    let container_name ← getItem "container_name"
    let item_id ← getItem "item_id"
    let item ← getItem "item"
    let partition_key ← getItem "partition_key"
    if !truthy account_name || !truthy database_name || !truthy container_name ||
        !truthy item_id || !truthy item || !truthy partition_key then
      throwM (PyExc.valueError
        "Account name, database name, container name, item ID, item, and partition key are required")
    pyCall "CosmosDBServer" (methods H) "_replace_item"
      [account_name, database_name, container_name, item_id, item, partition_key]
  else
    throwM (PyExc.valueError ("Unsupported tool: " ++ tool_name))

/-- `execute_tool` built over the deduplicated body. -/
def execute_tool_single (H : Handlers) (tool_name : String) : M Envelope := fun b =>
  match bodySingle H tool_name b with
  | (Except.ok v, b2) => (Except.ok (Envelope.success v), b2)
  | (Except.error e, b2) => (Except.ok (classify e), b2)

end Cosmos

namespace Search

/-- The handler methods `SearchServer` defines (search.py lines 190-362), as
abstract implementations. -/
structure Handlers where
  _create_index : List Value → Except PyExc Value
  _list_indexes : List Value → Except PyExc Value
  _delete_index : List Value → Except PyExc Value
  _query_index : List Value → Except PyExc Value
  _describe_index : List Value → Except PyExc Value

/-- Method table of `SearchServer`, transcribed from the `def` signatures at
search.py lines 190, 266, 286, 306 and 343.  `_query_index` declares four
parameters besides `self` (the last one, `query_type`, has a default, but
every call site passes all four, so the exact-arity model coincides with
Python on every reachable call). -/
def methods (H : Handlers) : String → Option (Nat × (List Value → Except PyExc Value))
  | "_create_index" => Option.some (2, H._create_index)
  | "_list_indexes" => Option.some (1, H._list_indexes)
  | "_delete_index" => Option.some (2, H._delete_index)
  | "_query_index" => Option.some (4, H._query_index)
  | "_describe_index" => Option.some (2, H._describe_index)
  | _ => Option.none

/-- The `try` body of `SearchServer.execute_tool` (search.py lines 123-168),
transcribed branch by branch in source order. -/
def body (H : Handlers) (tool_name : String) : M Value :=
  if tool_name = "search_index_list" then do
    let service_name ← getItem "service_name"
    if !truthy service_name then
      throwM (PyExc.valueError "Service name is required")
    pyCall "SearchServer" (methods H) "_list_indexes" [service_name]
  else if tool_name = "search_index_delete" then do
    let service_name ← getItem "service_name"
    let index_name ← getItem "index_name"
    if !truthy service_name || !truthy index_name then
      throwM (PyExc.valueError "Service name and index name are required")
    pyCall "SearchServer" (methods H) "_delete_index" [service_name, index_name]
  else if tool_name = "search_index_query" then do
    let service_name ← getItem "service_name"
    let index_name ← getItem "index_name"
    let query ← getItem "query"
    let query_type ← getItemOr "query_type" (Value.str "simple")
    if !truthy service_name || !truthy index_name || !truthy query then
      throwM (PyExc.valueError "Service name, index name, and query are required")
    pyCall "SearchServer" (methods H) "_query_index"
      [service_name, index_name, query, query_type]
  else if tool_name = "search_index_describe" then do
    let service_name ← getItem "service_name"
    let index_name ← getItem "index_name"
    if !truthy service_name || !truthy index_name then
      throwM (PyExc.valueError "Service name and index name are required")
    pyCall "SearchServer" (methods H) "_describe_index" [service_name, index_name]
  else if tool_name = "search_index_create" then do
    let service_name ← getItem "service_name"
    let index_name ← getItem "index_name"
    if !truthy service_name || !truthy index_name then
      throwM (PyExc.valueError "Service name and index name are required")
    pyCall "SearchServer" (methods H) "_create_index" [service_name, index_name]
  else
    throwM (PyExc.valueError ("Unsupported tool: " ++ tool_name))

/-- `SearchServer.execute_tool`: the `try` body wrapped in the same
error-normalizing `except` chain (`classify`) as the cosmos service. -/
def execute_tool (H : Handlers) (tool_name : String) : M Envelope := fun b =>
  match body H tool_name b with
  | (Except.ok v, b2) => (Except.ok (Envelope.success v), b2)
  | (Except.error e, b2) => (Except.ok (classify e), b2)

/-- The tool names that have a dispatch branch in `SearchServer.execute_tool`,
in branch order. -/
def toolNames : List String :=
  ["search_index_list", "search_index_delete", "search_index_query",
   "search_index_describe", "search_index_create"]

end Search

/-- A concrete cosmos handler package whose implementations all return
`Value.none`; used to evaluate the dispatcher on paths that never reach a
handler, and as a base for variations. -/
def hCosmos0 : Cosmos.Handlers :=
  ⟨fun _ => Except.ok Value.none, fun _ => Except.ok Value.none,
   fun _ => Except.ok Value.none, fun _ => Except.ok Value.none,
   fun _ => Except.ok Value.none, fun _ => Except.ok Value.none,
   fun _ => Except.ok Value.none, fun _ => Except.ok Value.none,
   fun _ => Except.ok Value.none, fun _ => Except.ok Value.none,
   fun _ => Except.ok Value.none⟩

/-- A concrete search handler package whose implementations all return
`Value.none`. -/
def hSearch0 : Search.Handlers :=
  ⟨fun _ => Except.ok Value.none, fun _ => Except.ok Value.none,
   fun _ => Except.ok Value.none, fun _ => Except.ok Value.none,
   fun _ => Except.ok Value.none⟩

/-! Run lemmas and a read-only (frame) framework for `M`. -/

theorem bind_def {α β : Type} (m : M α) (f : α → M β) : m >>= f = M.bind m f := rfl

theorem pure_def {α : Type} (a : α) : (pure a : M α) = fun b => (Except.ok a, b) := rfl

/-- A computation in `M` is read-only when it returns the bag it was given. -/
def ReadOnly {α : Type} (m : M α) : Prop := ∀ b : ArgBag, (m b).2 = b

theorem readOnly_pure {α : Type} (a : α) : ReadOnly (pure a : M α) := fun _ => rfl

theorem readOnly_throwM {α : Type} (e : PyExc) : ReadOnly (throwM e : M α) := fun _ => rfl

theorem readOnly_getItem (key : String) : ReadOnly (getItem key) := by
  intro b
  unfold getItem
  cases lookupBag b key <;> rfl

theorem readOnly_getItemOr (key : String) (d : Value) : ReadOnly (getItemOr key d) := by
  intro b
  unfold getItemOr
  cases lookupBag b key <;> rfl

theorem readOnly_pyCall (cls : String)
    (tbl : String → Option (Nat × (List Value → Except PyExc Value)))
    (mname : String) (args : List Value) : ReadOnly (pyCall cls tbl mname args) := by
  intro b
  unfold pyCall
  rcases tbl mname with _ | ⟨ar, f⟩
  · rfl
  · dsimp only
    split <;> rfl

theorem readOnly_bind {α β : Type} {m : M α} {f : α → M β}
    (hm : ReadOnly m) (hf : ∀ a, ReadOnly (f a)) : ReadOnly (m >>= f) := by
  intro b
  show (M.bind m f b).2 = b
  unfold M.bind
  rcases h : m b with ⟨r, b2⟩
  have hmb := hm b
  rw [h] at hmb
  cases r with
  | error e => exact hmb
  | ok a =>
      have hb : b2 = b := hmb
      rw [hb]
      exact hf a b

theorem readOnly_ite {α : Type} {c : Prop} [Decidable c] {m1 m2 : M α}
    (h1 : ReadOnly m1) (h2 : ReadOnly m2) : ReadOnly (if c then m1 else m2) := by
  by_cases h : c <;> simp [h] <;> assumption

/-- The desugared shape of a Python validation guard `if cond: raise e`
followed by the rest of the branch. -/
theorem readOnly_guard {c : Prop} [Decidable c] (e : PyExc) {k : PUnit → M Value}
    (hk : ∀ y, ReadOnly (k y)) :
    ReadOnly (if c then (throwM e >>= k) else ((pure PUnit.unit : M PUnit) >>= k)) :=
  readOnly_ite (readOnly_bind (readOnly_throwM e) hk) (readOnly_bind (readOnly_pure _) hk)

theorem readOnly_cosmosBody (H : Cosmos.Handlers) (n : String) :
    ReadOnly (Cosmos.body H n) :=
  readOnly_ite
    (readOnly_bind (readOnly_getItem _) fun _ =>
      readOnly_guard _ fun _ => readOnly_pyCall _ _ _ _) <|
  readOnly_ite
    (readOnly_bind (readOnly_getItem _) fun _ =>
      readOnly_guard _ fun _ => readOnly_pyCall _ _ _ _) <|
  readOnly_ite
    (readOnly_bind (readOnly_getItem _) fun _ =>
      readOnly_bind (readOnly_getItem _) fun _ =>
      readOnly_guard _ fun _ => readOnly_pyCall _ _ _ _) <|
  readOnly_ite
    (readOnly_bind (readOnly_getItem _) fun _ =>
      readOnly_bind (readOnly_getItem _) fun _ =>
      readOnly_guard _ fun _ => readOnly_pyCall _ _ _ _) <|
  readOnly_ite
    (readOnly_bind (readOnly_getItem _) fun _ =>
      readOnly_bind (readOnly_getItem _) fun _ =>
      readOnly_bind (readOnly_getItem _) fun _ =>
      readOnly_bind (readOnly_getItem _) fun _ =>
      readOnly_guard _ fun _ => readOnly_pyCall _ _ _ _) <|
  readOnly_ite
    (readOnly_bind (readOnly_getItem _) fun _ =>
      readOnly_bind (readOnly_getItem _) fun _ =>
      readOnly_bind (readOnly_getItem _) fun _ =>
      readOnly_guard _ fun _ => readOnly_pyCall _ _ _ _) <|
  readOnly_ite
    (readOnly_bind (readOnly_getItem _) fun _ =>
      readOnly_bind (readOnly_getItem _) fun _ =>
      readOnly_bind (readOnly_getItem _) fun _ =>
      readOnly_guard _ fun _ => readOnly_pyCall _ _ _ _) <|
  readOnly_ite
    (readOnly_bind (readOnly_getItem _) fun _ =>
      readOnly_bind (readOnly_getItem _) fun _ =>
      readOnly_bind (readOnly_getItem _) fun _ =>
      readOnly_bind (readOnly_getItem _) fun _ =>
      readOnly_guard _ fun _ => readOnly_pyCall _ _ _ _) <|
  readOnly_ite
    (readOnly_bind (readOnly_getItem _) fun _ =>
      readOnly_bind (readOnly_getItem _) fun _ =>
      readOnly_bind (readOnly_getItem _) fun _ =>
      readOnly_bind (readOnly_getItem _) fun _ =>
      readOnly_bind (readOnly_getItem _) fun _ =>
      readOnly_guard _ fun _ => readOnly_pyCall _ _ _ _) <|
  readOnly_ite
    (readOnly_bind (readOnly_getItem _) fun _ =>
      readOnly_bind (readOnly_getItem _) fun _ =>
      readOnly_bind (readOnly_getItem _) fun _ =>
      readOnly_bind (readOnly_getItem _) fun _ =>
      readOnly_bind (readOnly_getItem _) fun _ =>
      readOnly_guard _ fun _ => readOnly_pyCall _ _ _ _) <|
  readOnly_ite
    (readOnly_bind (readOnly_getItem _) fun _ =>
      readOnly_bind (readOnly_getItem _) fun _ =>
      readOnly_bind (readOnly_getItem _) fun _ =>
      readOnly_bind (readOnly_getItem _) fun _ =>
      readOnly_bind (readOnly_getItem _) fun _ =>
      readOnly_guard _ fun _ => readOnly_pyCall _ _ _ _) <|
  readOnly_ite
    (readOnly_bind (readOnly_getItem _) fun _ =>
      readOnly_bind (readOnly_getItem _) fun _ =>
      readOnly_bind (readOnly_getItem _) fun _ =>
      readOnly_bind (readOnly_getItem _) fun _ =>
      readOnly_bind (readOnly_getItem _) fun _ =>
      readOnly_bind (readOnly_getItem _) fun _ =>
      readOnly_guard _ fun _ => readOnly_pyCall _ _ _ _) <|
  readOnly_ite
    (readOnly_bind (readOnly_getItem _) fun _ =>
      readOnly_bind (readOnly_getItem _) fun _ =>
      readOnly_bind (readOnly_getItem _) fun _ =>
      readOnly_bind (readOnly_getItem _) fun _ =>
      readOnly_bind (readOnly_getItem _) fun _ =>
      readOnly_guard _ fun _ => readOnly_pyCall _ _ _ _)
    (readOnly_throwM _)

theorem readOnly_searchBody (H : Search.Handlers) (n : String) :
    ReadOnly (Search.body H n) :=
  readOnly_ite
    (readOnly_bind (readOnly_getItem _) fun _ =>
      readOnly_guard _ fun _ => readOnly_pyCall _ _ _ _) <|
  readOnly_ite
    (readOnly_bind (readOnly_getItem _) fun _ =>
      readOnly_bind (readOnly_getItem _) fun _ =>
      readOnly_guard _ fun _ => readOnly_pyCall _ _ _ _) <|
  readOnly_ite
    (readOnly_bind (readOnly_getItem _) fun _ =>
      readOnly_bind (readOnly_getItem _) fun _ =>
      readOnly_bind (readOnly_getItem _) fun _ =>
      readOnly_bind (readOnly_getItemOr _ _) fun _ =>
      readOnly_guard _ fun _ => readOnly_pyCall _ _ _ _) <|
  readOnly_ite
    (readOnly_bind (readOnly_getItem _) fun _ =>
      readOnly_bind (readOnly_getItem _) fun _ =>
      readOnly_guard _ fun _ => readOnly_pyCall _ _ _ _) <|
  readOnly_ite
    (readOnly_bind (readOnly_getItem _) fun _ =>
      readOnly_bind (readOnly_getItem _) fun _ =>
      readOnly_guard _ fun _ => readOnly_pyCall _ _ _ _)
    (readOnly_throwM _)

theorem readOnly_cosmosExec (H : Cosmos.Handlers) (n : String) :
    ReadOnly (Cosmos.execute_tool H n) := by
  intro b
  unfold Cosmos.execute_tool
  have h := readOnly_cosmosBody H n b
  rcases hb : Cosmos.body H n b with ⟨r, b2⟩
  rw [hb] at h
  cases r with
  | ok v => exact h
  | error e => exact h

theorem readOnly_searchExec (H : Search.Handlers) (n : String) :
    ReadOnly (Search.execute_tool H n) := by
  intro b
  unfold Search.execute_tool
  have h := readOnly_searchBody H n b
  rcases hb : Search.body H n b with ⟨r, b2⟩
  rw [hb] at h
  cases r with
  | ok v => exact h
  | error e => exact h

/-- Every path of the `cosmosdb_item_read` branch ends in the catch-all
`except Exception` clause: a missing key raises `KeyError`, a falsy required
value raises `ValueError`, and a bag that passes validation reaches the call
`self._read_item(...)` with five arguments against a four-parameter `def`,
which raises `TypeError`. -/
theorem execTool_item_read_fails (H : Cosmos.Handlers) (b : ArgBag) :
    ∃ msg, (Cosmos.execute_tool H "cosmosdb_item_read" b).1 =
      Except.ok (Envelope.failure FailCat.unexpected msg) := by
  simp only [Cosmos.execute_tool, Cosmos.body, bind_def, M.bind, getItem, throwM, pure_def,
    pyCall, Cosmos.methods, String.reduceEq, reduceIte]
  rcases h1 : lookupBag b "account_name" with _ | va
  · exact ⟨_, rfl⟩
  dsimp only
  rcases h2 : lookupBag b "database_name" with _ | vd
  · exact ⟨_, rfl⟩
  dsimp only
  rcases h3 : lookupBag b "container_name" with _ | vc
  · exact ⟨_, rfl⟩
  dsimp only
  rcases h4 : lookupBag b "item_id" with _ | vi
  · exact ⟨_, rfl⟩
  dsimp only
  rcases h5 : lookupBag b "partition_key" with _ | vp
  · exact ⟨_, rfl⟩
  dsimp only
  rcases ht1 : truthy va
  · exact ⟨_, rfl⟩
  rcases ht2 : truthy vd
  · exact ⟨_, rfl⟩
  rcases ht3 : truthy vc
  · exact ⟨_, rfl⟩
  rcases ht4 : truthy vi
  · exact ⟨_, rfl⟩
  rcases ht5 : truthy vp
  · exact ⟨_, rfl⟩
  · exact ⟨_, rfl⟩

/-- Same as `execTool_item_read_fails` for the `cosmosdb_item_delete` branch,
whose call `self._delete_item(...)` also passes five arguments to a
four-parameter `def`. -/
theorem execTool_item_delete_fails (H : Cosmos.Handlers) (b : ArgBag) :
    ∃ msg, (Cosmos.execute_tool H "cosmosdb_item_delete" b).1 =
      Except.ok (Envelope.failure FailCat.unexpected msg) := by
  simp only [Cosmos.execute_tool, Cosmos.body, bind_def, M.bind, getItem, throwM, pure_def,
    pyCall, Cosmos.methods, String.reduceEq, reduceIte]
  rcases h1 : lookupBag b "account_name" with _ | va
  · exact ⟨_, rfl⟩
  dsimp only
  rcases h2 : lookupBag b "database_name" with _ | vd
  · exact ⟨_, rfl⟩
  dsimp only
  rcases h3 : lookupBag b "container_name" with _ | vc
  · exact ⟨_, rfl⟩
  dsimp only
  rcases h4 : lookupBag b "item_id" with _ | vi
  · exact ⟨_, rfl⟩
  dsimp only
  rcases h5 : lookupBag b "partition_key" with _ | vp
  · exact ⟨_, rfl⟩
  dsimp only
  rcases ht1 : truthy va
  · exact ⟨_, rfl⟩
  rcases ht2 : truthy vd
  · exact ⟨_, rfl⟩
  rcases ht3 : truthy vc
  · exact ⟨_, rfl⟩
  rcases ht4 : truthy vi
  · exact ⟨_, rfl⟩
  rcases ht5 : truthy vp
  · exact ⟨_, rfl⟩
  · exact ⟨_, rfl⟩

/-! Handler packages used to instantiate theorems at concrete inputs. -/

/-- Cosmos handlers whose `_list_databases` raises `ResourceNotFoundError("boom")`. -/
def hCosmosNotFound : Cosmos.Handlers :=
  { hCosmos0 with _list_databases := fun _ => Except.error (PyExc.resourceNotFound "boom") }

/-- Cosmos handlers whose `_list_databases` raises `ResourceExistsError("boom")`. -/
def hCosmosExists : Cosmos.Handlers :=
  { hCosmos0 with _list_databases := fun _ => Except.error (PyExc.resourceExists "boom") }

/-- Cosmos handlers whose `_list_databases` raises a plain `AzureError("boom")`. -/
def hCosmosAzure : Cosmos.Handlers :=
  { hCosmos0 with _list_databases := fun _ => Except.error (PyExc.azureError "boom") }

/-- Whether the second character list is a leading segment of the first. -/
def charsLead : List Char → List Char → Bool
  | _, [] => true
  | [], _ :: _ => false
  | c :: cs, d :: ds => (c = d) && charsLead cs ds

/-- Whether the second character list occurs contiguously in the first; used
to state that an error message does not mention a given field name. -/
def charsContain : List Char → List Char → Bool
  | [], pat => pat.isEmpty
  | c :: cs, pat => charsLead (c :: cs) pat || charsContain cs pat

/-- Expected result of a dispatch that dies on `KeyError(key)` given the empty
bag: the catch-all clause fires with the `repr` of the first missing key. -/
def keyErrorResult (key : String) : Except PyExc Envelope × ArgBag :=
  (Except.ok (Envelope.failure FailCat.unexpected
    ("Unexpected error: " ++ ("\x27" ++ key ++ "\x27"))), [])

/-- C1 counterexample: dispatching `cosmosdb_database_describe` (required
fields `account_name` and `database_name`) with the empty bag does not return
an InvalidArgument-style envelope listing every required field.  The subscript
`tool_args["account_name"]` raises `KeyError` before any validation runs, the
generic `except Exception` clause converts it, and the resulting message
mentions only the first missing field: the string `database_name` does not
occur in it (`charsContain ... = false`). -/
theorem c1_counterexample :
    Cosmos.execute_tool hCosmos0 "cosmosdb_database_describe" [] =
      (Except.ok (Envelope.failure FailCat.unexpected
        "Unexpected error: \x27account_name\x27"), []) ∧
    charsContain "Unexpected error: \x27account_name\x27".toList "database_name".toList =
      false :=
  ⟨rfl, by decide⟩

/-- C1 (amended): for every tool with a dispatch branch, invoking
`execute_tool` with an empty argument bag returns a Failure envelope produced
by the catch-all `except Exception` clause, whose message is the `KeyError`
`repr` of the first required field only (never the full list), because the
first subscript access of the branch raises before the validation check runs. -/
theorem c1_empty_bag_first_key_only (H : Cosmos.Handlers) (Hs : Search.Handlers) :
    Cosmos.execute_tool H "cosmosdb_account_list" [] = keyErrorResult "account_name" ∧
    Cosmos.execute_tool H "cosmosdb_database_list" [] = keyErrorResult "account_name" ∧
    Cosmos.execute_tool H "cosmosdb_database_describe" [] = keyErrorResult "account_name" ∧
    Cosmos.execute_tool H "cosmosdb_container_list" [] = keyErrorResult "account_name" ∧
    Cosmos.execute_tool H "cosmosdb_container_create" [] = keyErrorResult "account_name" ∧
    Cosmos.execute_tool H "cosmosdb_container_describe" [] = keyErrorResult "account_name" ∧
    Cosmos.execute_tool H "cosmosdb_container_delete" [] = keyErrorResult "account_name" ∧
    Cosmos.execute_tool H "cosmosdb_item_create" [] = keyErrorResult "account_name" ∧
    Cosmos.execute_tool H "cosmosdb_item_read" [] = keyErrorResult "account_name" ∧
    Cosmos.execute_tool H "cosmosdb_item_delete" [] = keyErrorResult "account_name" ∧
    Cosmos.execute_tool H "cosmosdb_item_query" [] = keyErrorResult "account_name" ∧
    Cosmos.execute_tool H "cosmosdb_item_replace" [] = keyErrorResult "account_name" ∧
    Search.execute_tool Hs "search_index_list" [] = keyErrorResult "service_name" ∧
    Search.execute_tool Hs "search_index_delete" [] = keyErrorResult "service_name" ∧
    Search.execute_tool Hs "search_index_query" [] = keyErrorResult "service_name" ∧
    Search.execute_tool Hs "search_index_describe" [] = keyErrorResult "service_name" ∧
    Search.execute_tool Hs "search_index_create" [] = keyErrorResult "service_name" :=
  ⟨rfl, rfl, rfl, rfl, rfl, rfl, rfl, rfl, rfl, rfl, rfl, rfl, rfl, rfl, rfl, rfl, rfl⟩

/-- C2 counterexample: dispatching the unregistered name `bogus_tool` does
return a Failure envelope without any raised exception escaping, but the
envelope comes from the catch-all `except Exception` clause (`FailCat.
unexpected`, message prefix `Unexpected error:`), not from a distinct
UnsupportedOperation category: the `raise ValueError(f"Unsupported tool: ...")`
is swallowed by the generic clause. -/
theorem c2_counterexample :
    "bogus_tool" ∉ Cosmos.toolNames ∧
    Cosmos.execute_tool hCosmos0 "bogus_tool" [] =
      (Except.ok (Envelope.failure FailCat.unexpected
        "Unexpected error: Unsupported tool: bogus_tool"), []) ∧
    "bogus_tool" ∉ Search.toolNames ∧
    Search.execute_tool hSearch0 "bogus_tool" [] =
      (Except.ok (Envelope.failure FailCat.unexpected
        "Unexpected error: Unsupported tool: bogus_tool"), []) :=
  ⟨by decide, rfl, by decide, rfl⟩

/-- C2 (amended): for every tool name without a dispatch branch and every
argument bag, `execute_tool` returns (never raises) a Failure envelope
produced by the catch-all clause with message
`Unexpected error: Unsupported tool: <name>`; the bag is never read. -/
theorem c2_unregistered_catchall (n : String) :
    (n ∉ Cosmos.toolNames → ∀ (H : Cosmos.Handlers) (b : ArgBag),
      Cosmos.execute_tool H n b =
        (Except.ok (Envelope.failure FailCat.unexpected
          ("Unexpected error: " ++ ("Unsupported tool: " ++ n))), b)) ∧
    (n ∉ Search.toolNames → ∀ (H : Search.Handlers) (b : ArgBag),
      Search.execute_tool H n b =
        (Except.ok (Envelope.failure FailCat.unexpected
          ("Unexpected error: " ++ ("Unsupported tool: " ++ n))), b)) := by
  constructor
  · intro h H b
    simp only [Cosmos.toolNames, List.mem_cons, List.mem_singleton, not_or] at h
    obtain ⟨h1, h2, h3, h4, h5, h6, h7, h8, h9, h10, h11, h12, -⟩ := h
    unfold Cosmos.execute_tool Cosmos.body
    simp only [if_neg h1, if_neg h2, if_neg h3, if_neg h4, if_neg h5, if_neg h6, if_neg h7,
      if_neg h8, if_neg h9, if_neg h10, if_neg h11, if_neg h12]
    rfl
  · intro h H b
    simp only [Search.toolNames, List.mem_cons, List.mem_singleton, not_or] at h
    obtain ⟨h1, h2, h3, h4, h5, -⟩ := h
    unfold Search.execute_tool Search.body
    simp only [if_neg h1, if_neg h2, if_neg h3, if_neg h4, if_neg h5]
    rfl

/-- C2 witness: the amended theorem applied to the concrete unregistered name
`not_a_tool` with concrete handlers and the empty bag. -/
theorem c2_witness :
    Cosmos.execute_tool hCosmos0 "not_a_tool" [] =
      (Except.ok (Envelope.failure FailCat.unexpected
        ("Unexpected error: " ++ ("Unsupported tool: " ++ "not_a_tool"))), []) :=
  (c2_unregistered_catchall "not_a_tool").1 (by decide) hCosmos0 []

/-- C3: `execute_tool` is a total failure boundary: for every tool name,
argument bag and handler behaviour, both dispatchers return `Except.ok` of an
envelope (an uncaught exception would be `Except.error`), and the normalizer
`classify` maps every exception to a well-formed Failure envelope. -/
theorem c3_total_envelope :
    (∀ (H : Cosmos.Handlers) (n : String) (b : ArgBag),
      ∃ env b2, Cosmos.execute_tool H n b = (Except.ok env, b2)) ∧
    (∀ (H : Search.Handlers) (n : String) (b : ArgBag),
      ∃ env b2, Search.execute_tool H n b = (Except.ok env, b2)) ∧
    (∀ e : PyExc, ∃ cat msg, classify e = Envelope.failure cat msg) := by
  refine ⟨?_, ?_, ?_⟩
  · intro H n b
    unfold Cosmos.execute_tool
    rcases hb : Cosmos.body H n b with ⟨r, b2⟩
    cases r with
    | ok v => exact ⟨Envelope.success v, b2, rfl⟩
    | error e => exact ⟨classify e, b2, rfl⟩
  · intro H n b
    unfold Search.execute_tool
    rcases hb : Search.body H n b with ⟨r, b2⟩
    cases r with
    | ok v => exact ⟨Envelope.success v, b2, rfl⟩
    | error e => exact ⟨classify e, b2, rfl⟩
  · intro e
    cases e <;> exact ⟨_, _, rfl⟩

/-- C4: the `except` chain classifies in specificity order.  A
`ResourceNotFoundError` or `ResourceExistsError` also matches the more general
`except AzureError` clause (and the catch-all), yet `classify` assigns the
specific category; a plain `AzureError`, which also matches the catch-all,
gets the store-error category.  The last three conjuncts run this end to end
through `Cosmos.execute_tool` with handlers that raise each kind. -/
theorem c4_specificity_order (m : String) :
    (isAzureErrorExc (PyExc.resourceNotFound m) = true ∧
      classify (PyExc.resourceNotFound m) =
        Envelope.failure FailCat.resourceNotFound ("Resource not found: " ++ m)) ∧
    (isAzureErrorExc (PyExc.resourceExists m) = true ∧
      classify (PyExc.resourceExists m) =
        Envelope.failure FailCat.resourceExists ("Resource already exists: " ++ m)) ∧
    classify (PyExc.azureError m) =
      Envelope.failure FailCat.storeError ("Azure error: " ++ m) ∧
    Cosmos.execute_tool hCosmosNotFound "cosmosdb_database_list"
        [("account_name", Value.str "acct1")] =
      (Except.ok (Envelope.failure FailCat.resourceNotFound "Resource not found: boom"),
        [("account_name", Value.str "acct1")]) ∧
    Cosmos.execute_tool hCosmosExists "cosmosdb_database_list"
        [("account_name", Value.str "acct1")] =
      (Except.ok (Envelope.failure FailCat.resourceExists "Resource already exists: boom"),
        [("account_name", Value.str "acct1")]) ∧
    Cosmos.execute_tool hCosmosAzure "cosmosdb_database_list"
        [("account_name", Value.str "acct1")] =
      (Except.ok (Envelope.failure FailCat.storeError "Azure error: boom"),
        [("account_name", Value.str "acct1")]) :=
  ⟨⟨rfl, rfl⟩, ⟨rfl, rfl⟩, rfl, rfl, rfl, rfl⟩

/-- C9: neither dispatcher ever mutates the argument bag: the bag threaded
through the whole invocation is returned unchanged on every path, success or
failure. -/
theorem c9_bag_never_mutated :
    (∀ (H : Cosmos.Handlers) (n : String) (b : ArgBag),
      (Cosmos.execute_tool H n b).2 = b) ∧
    (∀ (H : Search.Handlers) (n : String) (b : ArgBag),
      (Search.execute_tool H n b).2 = b) :=
  ⟨fun H n b => readOnly_cosmosExec H n b, fun H n b => readOnly_searchExec H n b⟩

/-- C10: the second `cosmosdb_item_delete` dispatch branch (cosmos.py lines
214-224) is dead code: the earlier branch for the same name always matches
first, so `execute_tool` is extensionally equal to `execute_tool_single`, the
same function with the duplicate branch removed. -/
theorem c10_duplicate_delete_branch_dead (H : Cosmos.Handlers) (n : String) (b : ArgBag) :
    Cosmos.execute_tool H n b = Cosmos.execute_tool_single H n b := by
  unfold Cosmos.execute_tool Cosmos.execute_tool_single Cosmos.body Cosmos.bodySingle
  by_cases h1 : n = "cosmosdb_account_list"
  · simp only [if_pos h1]
  simp only [if_neg h1]
  by_cases h2 : n = "cosmosdb_database_list"
  · simp only [if_pos h2]
  simp only [if_neg h2]
  by_cases h3 : n = "cosmosdb_database_describe"
  · simp only [if_pos h3]
  simp only [if_neg h3]
  by_cases h4 : n = "cosmosdb_container_list"
  · simp only [if_pos h4]
  simp only [if_neg h4]
  by_cases h5 : n = "cosmosdb_container_create"
  · simp only [if_pos h5]
  simp only [if_neg h5]
  by_cases h6 : n = "cosmosdb_container_describe"
  · simp only [if_pos h6]
  simp only [if_neg h6]
  by_cases h7 : n = "cosmosdb_container_delete"
  · simp only [if_pos h7]
  simp only [if_neg h7]
  by_cases h8 : n = "cosmosdb_item_create"
  · simp only [if_pos h8]
  simp only [if_neg h8]
  by_cases h9 : n = "cosmosdb_item_read"
  · simp only [if_pos h9]
  simp only [if_neg h9]
  by_cases h10 : n = "cosmosdb_item_delete"
  · simp only [if_pos h10]
  simp only [if_neg h10]

/-- C5: when the `try` body completes without an exception, `execute_tool`
returns a Success envelope wrapping exactly the produced value (first two
conjuncts, covering every branch of both services, since every successful
branch returns the value of the handler directly).  The remaining conjuncts state
this at handler level for each tool whose invocation can succeed: if the
required arguments are present and truthy and the handler returns `v`, the
envelope is `Envelope.success v`, unmodified.  (The `cosmosdb_account_list`,
`cosmosdb_item_read` and `cosmosdb_item_delete` branches can never complete a
handler invocation - a missing method and two arity mismatches - so for them
the claim holds vacuously through the body-level conjuncts.) -/
theorem c5_success_unmodified :
    (∀ (H : Cosmos.Handlers) (n : String) (b : ArgBag) (v : Value) (b2 : ArgBag),
      Cosmos.body H n b = (Except.ok v, b2) →
      Cosmos.execute_tool H n b = (Except.ok (Envelope.success v), b2)) ∧
    (∀ (H : Search.Handlers) (n : String) (b : ArgBag) (v : Value) (b2 : ArgBag),
      Search.body H n b = (Except.ok v, b2) →
      Search.execute_tool H n b = (Except.ok (Envelope.success v), b2)) ∧
    (∀ (H : Cosmos.Handlers) (b : ArgBag) (va v : Value),
      lookupBag b "account_name" = Option.some va → truthy va = true →
      H._list_databases [va] = Except.ok v →
      Cosmos.execute_tool H "cosmosdb_database_list" b =
        (Except.ok (Envelope.success v), b)) ∧
    (∀ (H : Cosmos.Handlers) (b : ArgBag) (va vd v : Value),
      lookupBag b "account_name" = Option.some va → truthy va = true →
      lookupBag b "database_name" = Option.some vd → truthy vd = true →
      H._describe_database [va, vd] = Except.ok v →
      Cosmos.execute_tool H "cosmosdb_database_describe" b =
        (Except.ok (Envelope.success v), b)) ∧
    (∀ (H : Cosmos.Handlers) (b : ArgBag) (va vd v : Value),
      lookupBag b "account_name" = Option.some va → truthy va = true →
      lookupBag b "database_name" = Option.some vd → truthy vd = true →
      H._list_containers [va, vd] = Except.ok v →
      Cosmos.execute_tool H "cosmosdb_container_list" b =
        (Except.ok (Envelope.success v), b)) ∧
    (∀ (H : Cosmos.Handlers) (b : ArgBag) (va vd vc vp v : Value),
      lookupBag b "account_name" = Option.some va → truthy va = true →
      lookupBag b "database_name" = Option.some vd → truthy vd = true →
      lookupBag b "container_name" = Option.some vc → truthy vc = true →
      lookupBag b "partition_key" = Option.some vp → truthy vp = true →
      H._create_container [va, vd, vc, vp] = Except.ok v →
      Cosmos.execute_tool H "cosmosdb_container_create" b =
        (Except.ok (Envelope.success v), b)) ∧
    (∀ (H : Cosmos.Handlers) (b : ArgBag) (va vd vc v : Value),
      lookupBag b "account_name" = Option.some va → truthy va = true →
      lookupBag b "database_name" = Option.some vd → truthy vd = true →
      lookupBag b "container_name" = Option.some vc → truthy vc = true →
      H._describe_container [va, vd, vc] = Except.ok v →
      Cosmos.execute_tool H "cosmosdb_container_describe" b =
        (Except.ok (Envelope.success v), b)) ∧
    (∀ (H : Cosmos.Handlers) (b : ArgBag) (va vd vc v : Value),
      lookupBag b "account_name" = Option.some va → truthy va = true →
      lookupBag b "database_name" = Option.some vd → truthy vd = true →
      lookupBag b "container_name" = Option.some vc → truthy vc = true →
      H._delete_container [va, vd, vc] = Except.ok v →
      Cosmos.execute_tool H "cosmosdb_container_delete" b =
        (Except.ok (Envelope.success v), b)) ∧
    (∀ (H : Cosmos.Handlers) (b : ArgBag) (va vd vc vit v : Value),
      lookupBag b "account_name" = Option.some va → truthy va = true →
      lookupBag b "database_name" = Option.some vd → truthy vd = true →
      lookupBag b "container_name" = Option.some vc → truthy vc = true →
      lookupBag b "item" = Option.some vit → truthy vit = true →
      H._create_item [va, vd, vc, vit] = Except.ok v →
      Cosmos.execute_tool H "cosmosdb_item_create" b =
        (Except.ok (Envelope.success v), b)) ∧
    (∀ (H : Cosmos.Handlers) (b : ArgBag) (va vd vc vq vpar v : Value),
      lookupBag b "account_name" = Option.some va → truthy va = true →
      lookupBag b "database_name" = Option.some vd → truthy vd = true →
      lookupBag b "container_name" = Option.some vc → truthy vc = true →
      lookupBag b "query" = Option.some vq → truthy vq = true →
      lookupBag b "parameters" = Option.some vpar →
      H._query_item [va, vd, vc, vq, vpar] = Except.ok v →
      Cosmos.execute_tool H "cosmosdb_item_query" b =
        (Except.ok (Envelope.success v), b)) ∧
    (∀ (H : Cosmos.Handlers) (b : ArgBag) (va vd vc vi vit vp v : Value),
      lookupBag b "account_name" = Option.some va → truthy va = true →
      lookupBag b "database_name" = Option.some vd → truthy vd = true →
      lookupBag b "container_name" = Option.some vc → truthy vc = true →
      lookupBag b "item_id" = Option.some vi → truthy vi = true →
      lookupBag b "item" = Option.some vit → truthy vit = true →
      lookupBag b "partition_key" = Option.some vp → truthy vp = true →
      H._replace_item [va, vd, vc, vi, vit, vp] = Except.ok v →
      Cosmos.execute_tool H "cosmosdb_item_replace" b =
        (Except.ok (Envelope.success v), b)) ∧
    (∀ (H : Search.Handlers) (b : ArgBag) (vs v : Value),
      lookupBag b "service_name" = Option.some vs → truthy vs = true →
      H._list_indexes [vs] = Except.ok v →
      Search.execute_tool H "search_index_list" b =
        (Except.ok (Envelope.success v), b)) ∧
    (∀ (H : Search.Handlers) (b : ArgBag) (vs vi v : Value),
      lookupBag b "service_name" = Option.some vs → truthy vs = true →
      lookupBag b "index_name" = Option.some vi → truthy vi = true →
      H._delete_index [vs, vi] = Except.ok v →
      Search.execute_tool H "search_index_delete" b =
        (Except.ok (Envelope.success v), b)) ∧
    (∀ (H : Search.Handlers) (b : ArgBag) (vs vi vq vqt v : Value),
      lookupBag b "service_name" = Option.some vs → truthy vs = true →
      lookupBag b "index_name" = Option.some vi → truthy vi = true →
      lookupBag b "query" = Option.some vq → truthy vq = true →
      lookupBag b "query_type" = Option.some vqt →
      H._query_index [vs, vi, vq, vqt] = Except.ok v →
      Search.execute_tool H "search_index_query" b =
        (Except.ok (Envelope.success v), b)) ∧
    (∀ (H : Search.Handlers) (b : ArgBag) (vs vi v : Value),
      lookupBag b "service_name" = Option.some vs → truthy vs = true →
      lookupBag b "index_name" = Option.some vi → truthy vi = true →
      H._describe_index [vs, vi] = Except.ok v →
      Search.execute_tool H "search_index_describe" b =
        (Except.ok (Envelope.success v), b)) ∧
    (∀ (H : Search.Handlers) (b : ArgBag) (vs vi v : Value),
      lookupBag b "service_name" = Option.some vs → truthy vs = true →
      lookupBag b "index_name" = Option.some vi → truthy vi = true →
      H._create_index [vs, vi] = Except.ok v →
      Search.execute_tool H "search_index_create" b =
        (Except.ok (Envelope.success v), b)) := by
  refine ⟨?_, ?_, ?_, ?_, ?_, ?_, ?_, ?_, ?_, ?_, ?_, ?_, ?_, ?_, ?_, ?_⟩
  · intro H n b v b2 h
    unfold Cosmos.execute_tool
    rw [h]
  · intro H n b v b2 h
    unfold Search.execute_tool
    rw [h]
  · intro H b va v ha hta hcall
    unfold Cosmos.execute_tool Cosmos.body
    simp [bind_def, M.bind, getItem, getItemOr, throwM, pure_def, pyCall, Cosmos.methods,
      ha, hta, hcall]
  · intro H b va vd v ha hta hd htd hcall
    unfold Cosmos.execute_tool Cosmos.body
    simp [bind_def, M.bind, getItem, getItemOr, throwM, pure_def, pyCall, Cosmos.methods,
      ha, hta, hd, htd, hcall]
  · intro H b va vd v ha hta hd htd hcall
    unfold Cosmos.execute_tool Cosmos.body
    simp [bind_def, M.bind, getItem, getItemOr, throwM, pure_def, pyCall, Cosmos.methods,
      ha, hta, hd, htd, hcall]
  · intro H b va vd vc vp v ha hta hd htd hc htc hp htp hcall
    unfold Cosmos.execute_tool Cosmos.body
    simp [bind_def, M.bind, getItem, getItemOr, throwM, pure_def, pyCall, Cosmos.methods,
      ha, hta, hd, htd, hc, htc, hp, htp, hcall]
  · intro H b va vd vc v ha hta hd htd hc htc hcall
    unfold Cosmos.execute_tool Cosmos.body
    simp [bind_def, M.bind, getItem, getItemOr, throwM, pure_def, pyCall, Cosmos.methods,
      ha, hta, hd, htd, hc, htc, hcall]
  · intro H b va vd vc v ha hta hd htd hc htc hcall
    unfold Cosmos.execute_tool Cosmos.body
    simp [bind_def, M.bind, getItem, getItemOr, throwM, pure_def, pyCall, Cosmos.methods,
      ha, hta, hd, htd, hc, htc, hcall]
  · intro H b va vd vc vit v ha hta hd htd hc htc hit htit hcall
    unfold Cosmos.execute_tool Cosmos.body
    simp [bind_def, M.bind, getItem, getItemOr, throwM, pure_def, pyCall, Cosmos.methods,
      ha, hta, hd, htd, hc, htc, hit, htit, hcall]
  · intro H b va vd vc vq vpar v ha hta hd htd hc htc hq htq hpar hcall
    unfold Cosmos.execute_tool Cosmos.body
    simp [bind_def, M.bind, getItem, getItemOr, throwM, pure_def, pyCall, Cosmos.methods,
      ha, hta, hd, htd, hc, htc, hq, htq, hpar, hcall]
  · intro H b va vd vc vi vit vp v ha hta hd htd hc htc hi hti hit htit hp htp hcall
    unfold Cosmos.execute_tool Cosmos.body
    simp [bind_def, M.bind, getItem, getItemOr, throwM, pure_def, pyCall, Cosmos.methods,
      ha, hta, hd, htd, hc, htc, hi, hti, hit, htit, hp, htp, hcall]
  · intro H b vs v hs hts hcall
    unfold Search.execute_tool Search.body
    simp [bind_def, M.bind, getItem, getItemOr, throwM, pure_def, pyCall, Search.methods,
      hs, hts, hcall]
  · intro H b vs vi v hs hts hi hti hcall
    unfold Search.execute_tool Search.body
    simp [bind_def, M.bind, getItem, getItemOr, throwM, pure_def, pyCall, Search.methods,
      hs, hts, hi, hti, hcall]
  · intro H b vs vi vq vqt v hs hts hi hti hq htq hqt hcall
    unfold Search.execute_tool Search.body
    simp [bind_def, M.bind, getItem, getItemOr, throwM, pure_def, pyCall, Search.methods,
      hs, hts, hi, hti, hq, htq, hqt, hcall]
  · intro H b vs vi v hs hts hi hti hcall
    unfold Search.execute_tool Search.body
    simp [bind_def, M.bind, getItem, getItemOr, throwM, pure_def, pyCall, Search.methods,
      hs, hts, hi, hti, hcall]
  · intro H b vs vi v hs hts hi hti hcall
    unfold Search.execute_tool Search.body
    simp [bind_def, M.bind, getItem, getItemOr, throwM, pure_def, pyCall, Search.methods,
      hs, hts, hi, hti, hcall]

/-- C5 witness: the `cosmosdb_database_list` conjunct applied at a concrete
bag and handlers: the handler returns `Value.none` and the envelope is
`Envelope.success Value.none`. -/
theorem c5_witness :
    Cosmos.execute_tool hCosmos0 "cosmosdb_database_list"
        [("account_name", Value.str "acct1")] =
      (Except.ok (Envelope.success Value.none), [("account_name", Value.str "acct1")]) :=
  c5_success_unmodified.2.2.1 hCosmos0 [("account_name", Value.str "acct1")]
    (Value.str "acct1") Value.none rfl rfl rfl

/-- C6 counterexample: `dispatch("cosmosdb_database_list", account_name = "")`
does fail, but the envelope comes from the catch-all clause (message
`Unexpected error: Account name is required`), not an InvalidArgument
category, and it differs from the envelope for an absent key
(the `KeyError` envelope above), so present-but-falsy is not treated
identically to absent. -/
theorem c6_counterexample :
    Cosmos.execute_tool hCosmos0 "cosmosdb_database_list"
        [("account_name", Value.str "")] =
      (Except.ok (Envelope.failure FailCat.unexpected
        "Unexpected error: Account name is required"),
       [("account_name", Value.str "")]) ∧
    Cosmos.execute_tool hCosmos0 "cosmosdb_database_list" [] =
      (Except.ok (Envelope.failure FailCat.unexpected
        "Unexpected error: \x27account_name\x27"), []) ∧
    ("Unexpected error: Account name is required" : String) ≠
      "Unexpected error: \x27account_name\x27" :=
  ⟨rfl, rfl, by decide⟩

/-- C6 (amended): a present-but-falsy required value and an absent key both
make validation fail with a Failure envelope, but through different paths of
the same catch-all clause: a falsy value trips the `if not ...` check and
yields the `ValueError` message of the branch, while an absent key raises
`KeyError` first and yields the key `repr`.  Stated for `cosmosdb_database_list`
(`account_name`) and `search_index_list` (`service_name`). -/
theorem c6_falsy_or_absent_rejected :
    (∀ (H : Cosmos.Handlers) (b : ArgBag) (v : Value),
      lookupBag b "account_name" = Option.some v → truthy v = false →
      Cosmos.execute_tool H "cosmosdb_database_list" b =
        (Except.ok (Envelope.failure FailCat.unexpected
          "Unexpected error: Account name is required"), b)) ∧
    (∀ (H : Cosmos.Handlers) (b : ArgBag),
      lookupBag b "account_name" = Option.none →
      Cosmos.execute_tool H "cosmosdb_database_list" b =
        (Except.ok (Envelope.failure FailCat.unexpected
          "Unexpected error: \x27account_name\x27"), b)) ∧
    (∀ (H : Search.Handlers) (b : ArgBag) (v : Value),
      lookupBag b "service_name" = Option.some v → truthy v = false →
      Search.execute_tool H "search_index_list" b =
        (Except.ok (Envelope.failure FailCat.unexpected
          "Unexpected error: Service name is required"), b)) := by
  refine ⟨?_, ?_, ?_⟩
  · intro H b v ha htv
    unfold Cosmos.execute_tool Cosmos.body
    simp [bind_def, M.bind, getItem, throwM, pure_def, pyCall, Cosmos.methods, classify,
      isResourceNotFoundExc, isResourceExistsExc, isAzureErrorExc, excMessage, ha, htv]
  · intro H b ha
    unfold Cosmos.execute_tool Cosmos.body
    simp [bind_def, M.bind, getItem, throwM, pure_def, pyCall, Cosmos.methods, classify,
      isResourceNotFoundExc, isResourceExistsExc, isAzureErrorExc, excMessage, ha]
  · intro H b v hs hts
    unfold Search.execute_tool Search.body
    simp [bind_def, M.bind, getItem, throwM, pure_def, pyCall, Search.methods, classify,
      isResourceNotFoundExc, isResourceExistsExc, isAzureErrorExc, excMessage, hs, hts]

/-- C6 witness: the falsy conjunct applied at the empty dict (another falsy
value) for `account_name`. -/
theorem c6_witness :
    Cosmos.execute_tool hCosmos0 "cosmosdb_database_list"
        [("account_name", Value.dict [])] =
      (Except.ok (Envelope.failure FailCat.unexpected
        "Unexpected error: Account name is required"),
       [("account_name", Value.dict [])]) :=
  c6_falsy_or_absent_rejected.1 hCosmos0 [("account_name", Value.dict [])]
    (Value.dict []) rfl rfl

/-- The bag of the C7 counterexample: exactly the four fields the claim names,
all truthy, and nothing else. -/
def c7bag : ArgBag :=
  [("account_name", Value.str "a"), ("database_name", Value.str "d"),
   ("container_name", Value.str "c"), ("query", Value.str "q")]

/-- C7 counterexample: an invocation of `cosmosdb_item_query` with
`account_name`, `database_name`, `container_name` and `query` all present and
truthy does not pass validation as stated: the branch also subscripts
`tool_args["parameters"]` before validating, so this bag fails with a
`KeyError` envelope instead of reaching the handler. -/
theorem c7_counterexample :
    Cosmos.execute_tool hCosmos0 "cosmosdb_item_query" c7bag =
      (Except.ok (Envelope.failure FailCat.unexpected
        "Unexpected error: \x27parameters\x27"), c7bag) :=
  rfl

/-- C7 (amended): `cosmosdb_item_query` does not involve `partition_key` at
all: a bag with the four named fields truthy and a `parameters` key present
(any value, even null) dispatches to the handler although the bag has no
`partition_key` key (first conjunct).  The other item operations
(`cosmosdb_item_read`, `cosmosdb_item_delete`, `cosmosdb_item_replace`)
require `partition_key` to be present and truthy: with it absent or falsy
they always produce a catch-all Failure envelope (conjuncts two to four).
The quirk is also visible in the tools.py catalog: the `required` list of
`cosmosdb_item_query` omits `partition_key`, the one of `cosmosdb_item_read`
includes it (last two conjuncts). -/
theorem c7_partition_key_asymmetry :
    (∀ (H : Cosmos.Handlers) (b : ArgBag) (va vd vc vq vpar v : Value),
      lookupBag b "partition_key" = Option.none →
      lookupBag b "account_name" = Option.some va → truthy va = true →
      lookupBag b "database_name" = Option.some vd → truthy vd = true →
      lookupBag b "container_name" = Option.some vc → truthy vc = true →
      lookupBag b "query" = Option.some vq → truthy vq = true →
      lookupBag b "parameters" = Option.some vpar →
      H._query_item [va, vd, vc, vq, vpar] = Except.ok v →
      Cosmos.execute_tool H "cosmosdb_item_query" b =
        (Except.ok (Envelope.success v), b)) ∧
    (∀ (H : Cosmos.Handlers) (b : ArgBag),
      (lookupBag b "partition_key" = Option.none ∨
        ∃ w, lookupBag b "partition_key" = Option.some w ∧ truthy w = false) →
      ∃ msg, (Cosmos.execute_tool H "cosmosdb_item_read" b).1 =
        Except.ok (Envelope.failure FailCat.unexpected msg)) ∧
    (∀ (H : Cosmos.Handlers) (b : ArgBag),
      (lookupBag b "partition_key" = Option.none ∨
        ∃ w, lookupBag b "partition_key" = Option.some w ∧ truthy w = false) →
      ∃ msg, (Cosmos.execute_tool H "cosmosdb_item_delete" b).1 =
        Except.ok (Envelope.failure FailCat.unexpected msg)) ∧
    (∀ (H : Cosmos.Handlers) (b : ArgBag),
      (lookupBag b "partition_key" = Option.none ∨
        ∃ w, lookupBag b "partition_key" = Option.some w ∧ truthy w = false) →
      ∃ msg, (Cosmos.execute_tool H "cosmosdb_item_replace" b).1 =
        Except.ok (Envelope.failure FailCat.unexpected msg)) ∧
    ("cosmosdb_item_query", ["account_name", "container_name", "database_name", "query"]) ∈
      Cosmos.get_cosmosdb_tools ∧
    ("cosmosdb_item_read",
      ["account_name", "container_name", "database_name", "item_id", "partition_key"]) ∈
      Cosmos.get_cosmosdb_tools := by
  refine ⟨?_, ?_, ?_, ?_, by decide, by decide⟩
  · intro H b va vd vc vq vpar v hnone ha hta hd htd hc htc hq htq hpar hcall
    unfold Cosmos.execute_tool Cosmos.body
    simp [bind_def, M.bind, getItem, getItemOr, throwM, pure_def, pyCall, Cosmos.methods,
      ha, hta, hd, htd, hc, htc, hq, htq, hpar, hcall]
  · intro H b _
    exact execTool_item_read_fails H b
  · intro H b _
    exact execTool_item_delete_fails H b
  · intro H b hp
    simp only [Cosmos.execute_tool, Cosmos.body, bind_def, M.bind, getItem, throwM, pure_def,
      pyCall, Cosmos.methods, String.reduceEq, reduceIte]
    rcases h1 : lookupBag b "account_name" with _ | va
    · exact ⟨_, rfl⟩
    dsimp only
    rcases h2 : lookupBag b "database_name" with _ | vd
    · exact ⟨_, rfl⟩
    dsimp only
    rcases h3 : lookupBag b "container_name" with _ | vc
    · exact ⟨_, rfl⟩
    dsimp only
    rcases h4 : lookupBag b "item_id" with _ | vi
    · exact ⟨_, rfl⟩
    dsimp only
    rcases h5 : lookupBag b "item" with _ | vit
    · exact ⟨_, rfl⟩
    dsimp only
    rcases hp with hp | ⟨w, hw, htw⟩
    · rw [hp]
      exact ⟨_, rfl⟩
    · rw [hw]
      dsimp only
      rcases ht1 : truthy va
      · exact ⟨_, rfl⟩
      rcases ht2 : truthy vd
      · exact ⟨_, rfl⟩
      rcases ht3 : truthy vc
      · exact ⟨_, rfl⟩
      rcases ht4 : truthy vi
      · exact ⟨_, rfl⟩
      rcases ht5 : truthy vit
      · exact ⟨_, rfl⟩
      rw [htw]
      exact ⟨_, rfl⟩

/-- C7 witness: the first conjunct applied at a concrete bag that carries the
four named fields plus a null `parameters` value and no `partition_key` key:
the dispatch reaches the handler and succeeds. -/
theorem c7_witness :
    Cosmos.execute_tool hCosmos0 "cosmosdb_item_query"
        [("account_name", Value.str "a"), ("database_name", Value.str "d"),
         ("container_name", Value.str "c"), ("query", Value.str "q"),
         ("parameters", Value.none)] =
      (Except.ok (Envelope.success Value.none),
       [("account_name", Value.str "a"), ("database_name", Value.str "d"),
        ("container_name", Value.str "c"), ("query", Value.str "q"),
        ("parameters", Value.none)]) :=
  c7_partition_key_asymmetry.1 hCosmos0
    [("account_name", Value.str "a"), ("database_name", Value.str "d"),
     ("container_name", Value.str "c"), ("query", Value.str "q"),
     ("parameters", Value.none)]
    (Value.str "a") (Value.str "d") (Value.str "c") (Value.str "q") Value.none Value.none
    rfl rfl rfl rfl rfl rfl rfl rfl rfl rfl rfl

/-- C8: the `cosmosdb_item_read` and `cosmosdb_item_delete` dispatches can
never succeed for any handlers and any bag (first two conjuncts), and when
every required argument is present and truthy they fail with exactly the
`TypeError` of calling a four-parameter `def` with five arguments, wrapped by
the catch-all clause into an UnexpectedError envelope, before any store call
(third conjunct: the failure is independent of the handler implementations). -/
theorem c8_arity_mismatch (H : Cosmos.Handlers) (b : ArgBag) :
    (∃ msg, (Cosmos.execute_tool H "cosmosdb_item_read" b).1 =
      Except.ok (Envelope.failure FailCat.unexpected msg)) ∧
    (∃ msg, (Cosmos.execute_tool H "cosmosdb_item_delete" b).1 =
      Except.ok (Envelope.failure FailCat.unexpected msg)) ∧
    (∀ (va vd vc vi vp : Value),
      lookupBag b "account_name" = Option.some va → truthy va = true →
      lookupBag b "database_name" = Option.some vd → truthy vd = true →
      lookupBag b "container_name" = Option.some vc → truthy vc = true →
      lookupBag b "item_id" = Option.some vi → truthy vi = true →
      lookupBag b "partition_key" = Option.some vp → truthy vp = true →
      Cosmos.execute_tool H "cosmosdb_item_read" b =
        (Except.ok (Envelope.failure FailCat.unexpected
          "Unexpected error: _read_item() takes 5 positional arguments but 6 were given"),
         b) ∧
      Cosmos.execute_tool H "cosmosdb_item_delete" b =
        (Except.ok (Envelope.failure FailCat.unexpected
          "Unexpected error: _delete_item() takes 5 positional arguments but 6 were given"),
         b)) := by
  refine ⟨execTool_item_read_fails H b, execTool_item_delete_fails H b, ?_⟩
  intro va vd vc vi vp ha hta hd htd hc htc hi hti hp htp
  constructor
  · unfold Cosmos.execute_tool Cosmos.body
    simp [bind_def, M.bind, getItem, throwM, pure_def, pyCall, Cosmos.methods, classify,
      isResourceNotFoundExc, isResourceExistsExc, isAzureErrorExc, excMessage,
      ha, hta, hd, htd, hc, htc, hi, hti, hp, htp]
    rfl
  · unfold Cosmos.execute_tool Cosmos.body
    simp [bind_def, M.bind, getItem, throwM, pure_def, pyCall, Cosmos.methods, classify,
      isResourceNotFoundExc, isResourceExistsExc, isAzureErrorExc, excMessage,
      ha, hta, hd, htd, hc, htc, hi, hti, hp, htp]
    rfl

/-- C8 witness: the arity-failure conjunct applied at a concrete bag where
every required argument of `cosmosdb_item_read` is present and truthy. -/
theorem c8_witness :
    Cosmos.execute_tool hCosmos0 "cosmosdb_item_read"
        [("account_name", Value.str "a"), ("database_name", Value.str "d"),
         ("container_name", Value.str "c"), ("item_id", Value.str "i"),
         ("partition_key", Value.str "p")] =
      (Except.ok (Envelope.failure FailCat.unexpected
        "Unexpected error: _read_item() takes 5 positional arguments but 6 were given"),
       [("account_name", Value.str "a"), ("database_name", Value.str "d"),
        ("container_name", Value.str "c"), ("item_id", Value.str "i"),
        ("partition_key", Value.str "p")]) :=
  ((c8_arity_mismatch hCosmos0
      [("account_name", Value.str "a"), ("database_name", Value.str "d"),
       ("container_name", Value.str "c"), ("item_id", Value.str "i"),
       ("partition_key", Value.str "p")]).2.2
    (Value.str "a") (Value.str "d") (Value.str "c") (Value.str "i") (Value.str "p")
    rfl rfl rfl rfl rfl rfl rfl rfl rfl rfl).1
